import Mathlib

/-!
Shallow embedding of the arDCA training script
(src/arDCA/scripts/train.py) and of the collaborators it drives.

Tensors are nested lists of rationals; the script's statement sequence is
reflected as a list of events, so that ordering and dataflow facts about
the run can be stated and proved.  The external adabmDCA statistics
helpers and the parts of the arDCA package that are not in src/ are
modelled from the spec, each marked in its doc comment.
-/

namespace ArDCATrain

/-- a raw sequence: a list of L token indices. -/
abbrev Seq := List Nat

/-- a one-hot encoded batch of sequences, shape N x L x q, as nested lists. -/
abbrev Tensor := List (List (List ℚ))

/-- a single-site frequency table, shape L x q. -/
abbrev FreqOne := List (List ℚ)

/-- a pairwise frequency table, shape L x q x L x q. -/
abbrev FreqTwo := List (List (List (List ℚ)))

/-- an externally supplied restriction mask ("graph"). -/
abbrev GraphData := List (List Bool)

/-- the state of the global torch random source. -/
abbrev RngState := Int

/-- Modelled from the spec: the external DatasetDCA collaborator supplies the
token sequences, the per-sequence weights, and the dimensions L and q
("one-hot encoded sequence tensor (N, L, q), sample weight vector (N)"). -/
structure Dataset where
  data : List Seq
  weights : List ℚ
  L : Nat
  q : Nat
deriving DecidableEq

/-- Modelled from the spec: the sample weights sum to the "effective sample
size" (spec section 3, Sample Weights). -/
def Dataset.get_effective_size (d : Dataset) : ℚ := d.weights.sum

def Dataset.get_num_residues (d : Dataset) : Nat := d.L

def Dataset.get_num_states (d : Dataset) : Nat := d.q

/-- the ambient file system: which paths exist, what DatasetDCA returns for a
data path and an optional weights path, and what torch.load returns for a
graph path.  All of this is external to the core. -/
structure FS where
  pathExists : String → Bool
  dataset : String → Option String → Dataset
  loadGraph : String → GraphData

/-- the command-line configuration consumed by main (train.py lines 34-57).
Unset optional arguments are none. -/
structure Config where
  data : String
  output : String
  label : Option String
  weights : Option String
  path_graph : Option String
  data_test : Option String
  lr : ℚ
  reg_h : ℚ
  reg_J : ℚ
  no_entropic_order : Bool
  epsconv : ℚ
  nepochs : Int
  pseudocount : Option ℚ
  seed : Int
deriving DecidableEq

/-- Modelled from the spec: the external one-hot encoding adapter, "exactly
one 1 per (sample, position) slice, rest 0" (adabmDCA.functional.one_hot,
called at train.py line 118). -/
def one_hot (q : Nat) (data : List Seq) : Tensor :=
  data.map fun s => s.map fun a => (List.range q).map fun b => if b = a then (1 : ℚ) else 0

/-- entry (i, a) of one one-hot sequence slice (out-of-range reads give 0). -/
def tAt (x : List (List ℚ)) (i a : Nat) : ℚ := (x.getD i []).getD a 0

/-- number of positions of a batch (its second dimension). -/
def dimL (t : Tensor) : Nat := (t.headD []).length

/-- number of states of a batch (its last dimension). -/
def dimQ (t : Tensor) : Nat := ((t.headD []).headD []).length

/-- Modelled from the spec: the default pseudo-count of the external
adabmDCA frequency helpers, used when the call site passes none
(train.py lines 166-167 pass no pseudo-count): zero, i.e. the raw
empirical frequencies. -/
def default_pseudo_count : ℚ := 0

/-- Modelled from the spec: adabmDCA.stats.get_freq_single_point,
"single-site frequency (per position, per state, weighted count / total
weight, pseudocount-blended: f = (1-pc)*empirical + pc/q)".  A missing
weight vector means uniform weights. -/
def get_freq_single_point (data : Tensor) (weights : Option (List ℚ)) (pc : ℚ) : FreqOne :=
  let w := weights.getD (List.replicate data.length 1)
  let M := w.sum
  let q := dimQ data
  (List.range (dimL data)).map fun i => (List.range q).map fun a =>
    (1 - pc) * ((List.zipWith (fun wn x => wn * tAt x i a) w data).sum / M) + pc / (q : ℚ)

/-- Modelled from the spec: adabmDCA.stats.get_freq_two_points, "pairwise
frequency analogous over position pairs". -/
def get_freq_two_points (data : Tensor) (weights : Option (List ℚ)) (pc : ℚ) : FreqTwo :=
  let w := weights.getD (List.replicate data.length 1)
  let M := w.sum
  let L := dimL data
  let q := dimQ data
  (List.range L).map fun i => (List.range q).map fun a =>
    (List.range L).map fun j => (List.range q).map fun b =>
      (1 - pc) * ((List.zipWith (fun wn x => wn * (tAt x i a * tAt x j b)) w data).sum / M)
        + pc / ((q : ℚ) * (q : ℚ))

/-- index of the first maximal entry of a list (torch argmax over the last
dimension). -/
def argmaxIdx (v : List ℚ) : Nat :=
  (v.enum.foldl (fun acc p => if acc.2 < p.2 then p else acc) (0, v.headD 0)).1

/-- the model's compute_mean_error, modelled on the commented-out reference
implementation in train.py lines 26-28: per position, the fraction of
samples on which the argmax states of the two batches agree
((X1.argmax(dim=-1) == X2.argmax(dim=-1)).float().mean(dim=0)). -/
def compute_mean_error (X1 X2 : Tensor) : List ℚ :=
  let agree : List (List ℚ) :=
    List.zipWith (fun s1 s2 =>
      List.zipWith (fun v1 v2 => if argmaxIdx v1 = argmaxIdx v2 then (1 : ℚ) else 0) s1 s2) X1 X2
  (List.range ((agree.headD []).length)).map fun j =>
    (agree.map fun r => r.getD j 0).sum / (agree.length : ℚ)

/-- the .mean() reduction applied to the per-position agreement vector
(train.py lines 156 and 160). -/
def listMean (v : List ℚ) : ℚ := v.sum / (v.length : ℚ)

/-- the slice X[:, 2*L//3:, :] used at train.py lines 156, 160 and 165:
every sample keeps the positions from index 2*L//3 to the end. -/
def sliceLastThird (L : Nat) (t : Tensor) : Tensor := t.map fun s => s.drop (2 * L / 3)

/-- the slice fi[2*L//3:, :] used at train.py line 173. -/
def sliceRowsLastThird (L : Nat) (m : FreqOne) : FreqOne := m.drop (2 * L / 3)

/-- the slice fij[2*L//3:, :, 2*L//3:, :] used at train.py line 173. -/
def sliceTwoLastThird (L : Nat) (f : FreqTwo) : FreqTwo :=
  (f.drop (2 * L / 3)).map fun fa => fa.map fun fj => fj.drop (2 * L / 3)

/-- Modelled from the spec: zero initialization of the Parameter Store
(spec section 4.2, the arDCA constructor is not under src/); the parameter
vector is deterministic, so constructing the model consumes no randomness. -/
def zeroParams (L q : Nat) : List ℚ := List.replicate (L * q) 0

/-- the arDCA model object: dimensions, optional restriction mask, and the
flat parameter vector (Model State of spec section 3). -/
structure ArModel where
  L : Nat
  q : Nat
  graph : Option GraphData
  params : List ℚ
deriving DecidableEq

/-- the keyword arguments of the model.fit call at train.py lines 140-152. -/
structure FitArgs where
  X : Tensor
  weights : List ℚ
  max_epochs : Int
  epsconv : ℚ
  pseudo_count : ℚ
  use_entropic_order : Bool
  fix_first_residue : Bool
  reg_h : ℚ
  reg_J : ℚ
  X_test : Option Tensor
deriving DecidableEq

/-- the error taxonomy of spec section 7 plus the script's own
FileNotFoundError (train.py line 61). -/
inductive Err where
  | fileNotFound
  | configurationError
  | invalidInput
  | divergedTraining
deriving DecidableEq

/-- Modelled from the spec: the configuration validation of the core
(arDCA.fit is not under src/): "ConfigurationError (pseudocount <= 0 or
>= 1, nepochs <= 0, thresholds <= 0) ... raised immediately at detection
point, surfaced to the caller (training script), never silently downgraded
to a default value" (spec section 7). -/
def fitValidate (a : FitArgs) : Option Err :=
  if a.pseudo_count ≤ 0 ∨ 1 ≤ a.pseudo_count then some Err.configurationError
  else if a.max_epochs ≤ 0 then some Err.configurationError
  else if a.epsconv ≤ 0 then some Err.configurationError
  else none

/-- Modelled from the spec: the three operations of the arDCA model that the
script calls and whose bodies are not under src/.  Each is a deterministic
function of the model, its arguments, and the explicit random-source state
(spec section 4.6: "stochastic mode requires an explicit random source
whose seed is controllable"; maximum-likelihood prediction is
deterministic).  fit returns the updated parameter vector, the final loss,
and the advanced random-source state. -/
structure Backend where
  fit : ArModel → FitArgs → RngState → List ℚ × ℚ × RngState
  predictThirdML : ArModel → Tensor → Tensor
  sampleAR : ArModel → Tensor → RngState → Tensor × RngState

/-- one event per effectful statement of main, in the statement order of
train.py.  Optional effects carry an Option payload: none means the
statement executed but had no effect (e.g. no weights file written). -/
inductive Event where
  | mkdirOutput (path : String)
  | loadDataset (path : String)
  | graphStep (loaded : Option String)
  | constructModel (L q : Nat) (graph : Option GraphData)
  | weightsStep (written : Option (String × List ℚ))
  | manualSeed (s : Int)
  | pcStep (autoSet : Option ℚ)
  | computeFiTarget (pc : ℚ) (fi : FreqOne)
  | computeFijTarget (pc : ℚ)
  | testStep (loaded : Option String)
  | fitCall (args : FitArgs)
  | evalTrain (err : ℚ)
  | evalTest (err : Option ℚ)
  | sampleAR (seedArg : Tensor)
  | computePi (pc : ℚ) (pi : FreqOne)
  | computePij (pc : ℚ)
  | correlate (fi : FreqOne) (fij : FreqTwo) (pi : FreqOne) (pij : FreqTwo)
  | correlateThird (fi : FreqOne) (fij : FreqTwo) (pi : FreqOne) (pij : FreqTwo)
  | saveParams (path : String)
deriving DecidableEq

/-- the dataset object built at train.py lines 79-87. -/
def dsOf (fs : FS) (cfg : Config) : Dataset := fs.dataset cfg.data cfg.weights

/-- the graph argument of the constructor call, train.py line 97:
torch.load(args.path_graph) if args.path_graph else None.  The condition is
Python truthiness of the path string: None and the empty string both give
None. -/
def graphArg (fs : FS) (cfg : Config) : Option GraphData :=
  match cfg.path_graph with
  | some p => if p = "" then none else some (fs.loadGraph p)
  | none => none

/-- which path, if any, the graph-loading statement reads. -/
def graphLoadedPath (cfg : Config) : Option String :=
  match cfg.path_graph with
  | some p => if p = "" then none else some p
  | none => none

/-- the model built at train.py line 99: arDCA(L=L, q=q, graph=graph) with
L and q taken from the dataset (lines 91-92). -/
def modelOf (fs : FS) (cfg : Config) : ArModel :=
  { L := (dsOf fs cfg).get_num_residues
    q := (dsOf fs cfg).get_num_states
    graph := graphArg fs cfg
    params := zeroParams (dsOf fs cfg).get_num_residues (dsOf fs cfg).get_num_states }

/-- the weights output path, train.py lines 104-107. -/
def weightsPath (cfg : Config) : String :=
  match cfg.label with
  | some l => cfg.output ++ "/" ++ l ++ "_weights.dat"
  | none => cfg.output ++ "/weights.dat"

/-- the params output path, train.py lines 67-75. -/
def paramsPath (cfg : Config) : String :=
  match cfg.label with
  | some l => cfg.output ++ "/" ++ l ++ "_params.pth"
  | none => cfg.output ++ "/params.pth"

/-- the effect of train.py lines 102-109: the dataset weights are written to
the weights file exactly when no weights file was supplied. -/
def weightsWritten (fs : FS) (cfg : Config) : Option (String × List ℚ) :=
  match cfg.weights with
  | none => some (weightsPath cfg, (dsOf fs cfg).weights)
  | some _ => none

/-- train.py line 112: torch.manual_seed(args.seed) overwrites the global
random-source state with a function of the configured seed alone. -/
def torchManualSeed (s : Int) : RngState := s

/-- the pseudocount in effect after train.py lines 114-116: the configured
value if set, otherwise 1 / effective sample size. -/
def resolvedPc (fs : FS) (cfg : Config) : ℚ :=
  match cfg.pseudocount with
  | some p => p
  | none => 1 / (dsOf fs cfg).get_effective_size

/-- the value automatically assigned at train.py line 115, when any. -/
def pcAutoSet (fs : FS) (cfg : Config) : Option ℚ :=
  match cfg.pseudocount with
  | some _ => none
  | none => some (1 / (dsOf fs cfg).get_effective_size)

/-- the one-hot training batch of train.py line 118. -/
def dataOhOf (fs : FS) (cfg : Config) : Tensor :=
  one_hot (dsOf fs cfg).get_num_states (dsOf fs cfg).data

/-- fi_target of train.py line 119. -/
def fiTargetOf (fs : FS) (cfg : Config) : FreqOne :=
  get_freq_single_point (dataOhOf fs cfg) (some (dsOf fs cfg).weights) (resolvedPc fs cfg)

/-- fij_target of train.py line 120. -/
def fijTargetOf (fs : FS) (cfg : Config) : FreqTwo :=
  get_freq_two_points (dataOhOf fs cfg) (some (dsOf fs cfg).weights) (resolvedPc fs cfg)

/-- the one-hot held-out batch of train.py lines 126-137, when a test MSA is
configured (its DatasetDCA is built with path_weights=None). -/
def testOhOf (fs : FS) (cfg : Config) : Option Tensor :=
  cfg.data_test.map fun p => one_hot (dsOf fs cfg).get_num_states (fs.dataset p none).data

/-- the arguments of the model.fit call, train.py lines 140-152. -/
def fitArgsOf (fs : FS) (cfg : Config) : FitArgs :=
  { X := dataOhOf fs cfg
    weights := (dsOf fs cfg).weights
    max_epochs := cfg.nepochs
    epsconv := cfg.epsconv
    pseudo_count := resolvedPc fs cfg
    use_entropic_order := !cfg.no_entropic_order
    fix_first_residue := false
    reg_h := cfg.reg_h
    reg_J := cfg.reg_J
    X_test := testOhOf fs cfg }

/-- result of the training call: it starts from the random-source state set
at line 112. -/
def fitResOf (B : Backend) (fs : FS) (cfg : Config) : List ℚ × ℚ × RngState :=
  B.fit (modelOf fs cfg) (fitArgsOf fs cfg) (torchManualSeed cfg.seed)

/-- the model after training (parameters updated in place). -/
def modelTrainedOf (B : Backend) (fs : FS) (cfg : Config) : ArModel :=
  { modelOf fs cfg with params := (fitResOf B fs cfg).1 }

/-- the scalar loss returned by fit, train.py line 140. -/
def lossOf (B : Backend) (fs : FS) (cfg : Config) : ℚ := (fitResOf B fs cfg).2.1

/-- the random-source state after training. -/
def rngAfterFit (B : Backend) (fs : FS) (cfg : Config) : RngState := (fitResOf B fs cfg).2.2

/-- the train-set agreement of train.py lines 155-156: predictions and true
data are both restricted to the slice [:, 2*L//3:, :] before comparison,
and the per-position agreement vector is averaged by .mean(). -/
def errTrainOf (B : Backend) (fs : FS) (cfg : Config) : ℚ :=
  listMean (compute_mean_error
    (sliceLastThird (modelOf fs cfg).L (B.predictThirdML (modelTrainedOf B fs cfg) (dataOhOf fs cfg)))
    (sliceLastThird (modelOf fs cfg).L (dataOhOf fs cfg)))

/-- the test-set agreement of train.py lines 158-161, when a test MSA is
configured. -/
def errTestOf (B : Backend) (fs : FS) (cfg : Config) : Option ℚ :=
  (testOhOf fs cfg).map fun toh =>
    listMean (compute_mean_error
      (sliceLastThird (modelOf fs cfg).L (B.predictThirdML (modelTrainedOf B fs cfg) toh))
      (sliceLastThird (modelOf fs cfg).L toh))

/-- the tensor passed to model.sample_autoregressive at train.py line 165:
data_oh[:, 2*model.L//3:, :]. -/
def seedArgOf (fs : FS) (cfg : Config) : Tensor :=
  sliceLastThird (modelOf fs cfg).L (dataOhOf fs cfg)

/-- the sampling call of train.py line 165. -/
def sampleResOf (B : Backend) (fs : FS) (cfg : Config) : Tensor × RngState :=
  B.sampleAR (modelTrainedOf B fs cfg) (seedArgOf fs cfg) (rngAfterFit B fs cfg)

/-- the sampled sequences of train.py line 165. -/
def samplesOf (B : Backend) (fs : FS) (cfg : Config) : Tensor := (sampleResOf B fs cfg).1

/-- pi of train.py line 166: get_freq_single_point(samples), with no weights
and no pseudo-count argument. -/
def piOf (B : Backend) (fs : FS) (cfg : Config) : FreqOne :=
  get_freq_single_point (samplesOf B fs cfg) none default_pseudo_count

/-- pij of train.py line 167: get_freq_two_points(samples), with no weights
and no pseudo-count argument. -/
def pijOf (B : Backend) (fs : FS) (cfg : Config) : FreqTwo :=
  get_freq_two_points (samplesOf B fs cfg) none default_pseudo_count

/-- the values the run computes and reports. -/
structure Outputs where
  loss : ℚ
  errTrain : ℚ
  errTest : Option ℚ
  samples : Tensor
  pi : FreqOne
  pij : FreqTwo
deriving DecidableEq

def outputsOf (B : Backend) (fs : FS) (cfg : Config) : Outputs :=
  { loss := lossOf B fs cfg
    errTrain := errTrainOf B fs cfg
    errTest := errTestOf B fs cfg
    samples := samplesOf B fs cfg
    pi := piOf B fs cfg
    pij := pijOf B fs cfg }

/-- the events of train.py lines 63-152, in statement order: mkdir (65),
dataset import (79), graph import (94-97), model construction (99),
weights saving (102-109), manual_seed (112), pseudocount resolution
(114-116), fi_target (119), fij_target (120), test dataset (126-137),
the fit call (140). -/
def preTraceOf (fs : FS) (cfg : Config) : List Event :=
  [Event.mkdirOutput cfg.output,
   Event.loadDataset cfg.data,
   Event.graphStep (graphLoadedPath cfg),
   Event.constructModel (dsOf fs cfg).get_num_residues (dsOf fs cfg).get_num_states (graphArg fs cfg),
   Event.weightsStep (weightsWritten fs cfg),
   Event.manualSeed cfg.seed,
   Event.pcStep (pcAutoSet fs cfg),
   Event.computeFiTarget (resolvedPc fs cfg) (fiTargetOf fs cfg),
   Event.computeFijTarget (resolvedPc fs cfg),
   Event.testStep cfg.data_test,
   Event.fitCall (fitArgsOf fs cfg)]

/-- the events of train.py lines 154-178, executed when fit returns:
train agreement (155-156), test agreement (158-161), sampling (165),
pi (166), pij (167), full-table Pearson (168), last-third Pearson (173),
params saving (178). -/
def postTraceOf (B : Backend) (fs : FS) (cfg : Config) : List Event :=
  [Event.evalTrain (errTrainOf B fs cfg),
   Event.evalTest (errTestOf B fs cfg),
   Event.sampleAR (seedArgOf fs cfg),
   Event.computePi default_pseudo_count (piOf B fs cfg),
   Event.computePij default_pseudo_count,
   Event.correlate (fiTargetOf fs cfg) (fijTargetOf fs cfg) (piOf B fs cfg) (pijOf B fs cfg),
   Event.correlateThird (sliceRowsLastThird (modelOf fs cfg).L (fiTargetOf fs cfg))
     (sliceTwoLastThird (modelOf fs cfg).L (fijTargetOf fs cfg))
     (sliceRowsLastThird (modelOf fs cfg).L (piOf B fs cfg))
     (sliceTwoLastThird (modelOf fs cfg).L (pijOf B fs cfg)),
   Event.saveParams (paramsPath cfg)]

/-- the whole of main (train.py lines 59-178): the data-file existence check
raises FileNotFoundError before anything else runs (lines 60-61, before the
mkdir of line 65); otherwise the run proceeds in statement order, stopping
with the surfaced error if the fit call rejects its configuration.  The
initial random-source state sigma is the global torch state at entry; it is
never consumed, because manual_seed overwrites it before fit and sampling,
and nothing earlier draws randomness. -/
def runMain (B : Backend) (fs : FS) (sigma : RngState) (cfg : Config) :
    List Event × Except Err Outputs :=
  if fs.pathExists cfg.data = true then
    match fitValidate (fitArgsOf fs cfg) with
    | some e => (preTraceOf fs cfg, Except.error e)
    | none => (preTraceOf fs cfg ++ postTraceOf B fs cfg, Except.ok (outputsOf B fs cfg))
  else ([], Except.error Err.fileNotFound)

/-- recognizes the event of an actual weights-file write. -/
def isWeightsWrite : Event → Bool
  | Event.weightsStep (some _) => true
  | _ => false

/-- recognizes the manual_seed event. -/
def isManualSeed : Event → Bool
  | Event.manualSeed _ => true
  | _ => false

/-- recognizes the fit call event. -/
def isFitCall : Event → Bool
  | Event.fitCall _ => true
  | _ => false

/-- recognizes an automatic pseudocount assignment. -/
def isPcAutoSet : Event → Bool
  | Event.pcStep (some _) => true
  | _ => false

/-- recognizes the fi_target computation. -/
def isFiTargetEv : Event → Bool
  | Event.computeFiTarget _ _ => true
  | _ => false

/-- recognizes the fij_target computation. -/
def isFijTargetEv : Event → Bool
  | Event.computeFijTarget _ => true
  | _ => false

/-! Concrete instances used by witnesses and counterexamples: a one-sequence
dataset with L = 3, q = 2, and a trivial deterministic backend. -/

/-- a tiny dataset: one sequence [0, 1, 0] of weight 1, L = 3, q = 2. -/
def dsEx : Dataset := { data := [[0, 1, 0]], weights := [1], L := 3, q := 2 }

/-- a file system on which every path exists. -/
def fsEx : FS :=
  { pathExists := fun _ => true
    dataset := fun _ _ => dsEx
    loadGraph := fun _ => [[true]] }

/-- a file system on which no path exists. -/
def fsMissing : FS :=
  { pathExists := fun _ => false
    dataset := fun _ _ => dsEx
    loadGraph := fun _ => [[true]] }

/-- a valid configuration: explicit pseudocount 1/2, positive epochs and
threshold, no optional inputs. -/
def cfgEx : Config :=
  { data := "msa.fasta"
    output := "out"
    label := none
    weights := none
    path_graph := none
    data_test := none
    lr := 1 / 100
    reg_h := 0
    reg_J := 0
    no_entropic_order := false
    epsconv := 1 / 100
    nepochs := 5
    pseudocount := some (1 / 2)
    seed := 0 }

/-- the valid configuration with the pseudocount left unset. -/
def cfgAuto : Config := { cfgEx with pseudocount := none }

/-- a configuration with an invalid (negative) pseudocount. -/
def cfgBad : Config := { cfgEx with pseudocount := some (-1) }

/-- a non-empty graph path. -/
def gpath : String := "graph.pth"

/-- an empty graph path. -/
def emptyPath : String := ""

/-- the valid configuration with a non-empty graph path. -/
def cfgGraph : Config := { cfgEx with path_graph := some gpath }

/-- the valid configuration with an empty-string graph path. -/
def cfgEmptyGraph : Config := { cfgEx with path_graph := some emptyPath }

/-- a trivial deterministic backend: fit keeps the parameters and returns
loss 0, prediction echoes its input, sampling returns the seed tensor. -/
def B0 : Backend :=
  { fit := fun m _ s => (m.params, 0, s)
    predictThirdML := fun _ X => X
    sampleAR := fun _ seedArg s => (seedArg, s) }

/-! Helper lemmas about the run. -/

/-- a fit call with an in-range pseudocount, positive epoch budget and
positive threshold passes validation. -/
theorem fitValidate_eq_none (a : FitArgs) (h1 : 0 < a.pseudo_count)
    (h2 : a.pseudo_count < 1) (h3 : 0 < a.max_epochs) (h4 : 0 < a.epsconv) :
    fitValidate a = none := by
  have hpc : ¬(a.pseudo_count ≤ 0 ∨ 1 ≤ a.pseudo_count) := by
    push_neg
    exact ⟨h1, h2⟩
  unfold fitValidate
  rw [if_neg hpc, if_neg (not_le.mpr h3), if_neg (not_le.mpr h4)]

/-- a fit call with any out-of-range configuration value is rejected with
ConfigurationError. -/
theorem fitValidate_invalid (a : FitArgs)
    (h : a.pseudo_count ≤ 0 ∨ 1 ≤ a.pseudo_count ∨ a.max_epochs ≤ 0 ∨ a.epsconv ≤ 0) :
    fitValidate a = some Err.configurationError := by
  unfold fitValidate
  split_ifs with h1 h2 h3
  · rfl
  · rfl
  · rfl
  · exfalso
    rcases h with h | h | h | h
    · exact h1 (Or.inl h)
    · exact h1 (Or.inr h)
    · exact h2 h
    · exact h3 h

/-- when the data file is missing the run stops at once. -/
theorem runMain_notFound (B : Backend) (fs : FS) (σ : RngState) (cfg : Config)
    (hx : fs.pathExists cfg.data = false) :
    runMain B fs σ cfg = ([], Except.error Err.fileNotFound) := by
  simp [runMain, hx]

/-- when the fit call rejects its configuration, the run stops there. -/
theorem runMain_invalid (B : Backend) (fs : FS) (σ : RngState) (cfg : Config) (e : Err)
    (hx : fs.pathExists cfg.data = true)
    (hv : fitValidate (fitArgsOf fs cfg) = some e) :
    runMain B fs σ cfg = (preTraceOf fs cfg, Except.error e) := by
  simp [runMain, hx, hv]

/-- when the data file exists and the configuration is accepted, the run
executes all statements and succeeds. -/
theorem runMain_success (B : Backend) (fs : FS) (σ : RngState) (cfg : Config)
    (hx : fs.pathExists cfg.data = true)
    (hv : fitValidate (fitArgsOf fs cfg) = none) :
    runMain B fs σ cfg
      = (preTraceOf fs cfg ++ postTraceOf B fs cfg, Except.ok (outputsOf B fs cfg)) := by
  simp [runMain, hx, hv]

/-- the valid example configuration passes validation. -/
theorem fitValidate_cfgEx : fitValidate (fitArgsOf fsEx cfgEx) = none := by
  norm_num [fitValidate, fitArgsOf, resolvedPc, dsOf, fsEx, cfgEx, dsEx]

/-! Claim theorems. -/

/-- Claim C3: a configuration with pseudocount outside (0, 1), or a
non-positive epoch budget, or a non-positive convergence threshold makes
the run fail with ConfigurationError surfaced to the caller, while the
script passes every configured value through to the fit call unchanged
(never downgraded to a default); a configuration whose resolved values are
in range raises no such error and the run succeeds. -/
theorem C3_configuration_error_handling (B : Backend) (fs : FS) (σ : RngState) (cfg : Config)
    (hx : fs.pathExists cfg.data = true) :
    ((∃ p, cfg.pseudocount = some p ∧ (p ≤ 0 ∨ 1 ≤ p)) ∨ cfg.nepochs ≤ 0 ∨ cfg.epsconv ≤ 0 →
      (runMain B fs σ cfg).2 = Except.error Err.configurationError) ∧
    (0 < resolvedPc fs cfg → resolvedPc fs cfg < 1 → 0 < cfg.nepochs → 0 < cfg.epsconv →
      (runMain B fs σ cfg).2 = Except.ok (outputsOf B fs cfg)) ∧
    (∀ p, cfg.pseudocount = some p → (fitArgsOf fs cfg).pseudo_count = p) ∧
    (fitArgsOf fs cfg).max_epochs = cfg.nepochs ∧
    (fitArgsOf fs cfg).epsconv = cfg.epsconv := by
  refine ⟨?_, ?_, ?_, rfl, rfl⟩
  · intro h
    have hv : fitValidate (fitArgsOf fs cfg) = some Err.configurationError := by
      apply fitValidate_invalid
      rcases h with ⟨p, hp, hbad | hbad⟩ | h | h
      · exact Or.inl (by simp [fitArgsOf, resolvedPc, hp, hbad])
      · exact Or.inr (Or.inl (by simp [fitArgsOf, resolvedPc, hp, hbad]))
      · exact Or.inr (Or.inr (Or.inl h))
      · exact Or.inr (Or.inr (Or.inr h))
    rw [runMain_invalid B fs σ cfg Err.configurationError hx hv]
  · intro h1 h2 h3 h4
    have hv : fitValidate (fitArgsOf fs cfg) = none := fitValidate_eq_none _ h1 h2 h3 h4
    rw [runMain_success B fs σ cfg hx hv]
  · intro p hp
    simp [fitArgsOf, resolvedPc, hp]

/-- Claim C3 witness: the example run with configured pseudocount -1 fails
with ConfigurationError. -/
theorem C3_configuration_error_handling_witness :
    (runMain B0 fsEx 0 cfgBad).2 = Except.error Err.configurationError :=
  (C3_configuration_error_handling B0 fsEx 0 cfgBad rfl).1
    (Or.inl ⟨-1, rfl, Or.inl (by norm_num)⟩)

/-- Claim C7: the whole run, and in particular its sampled output, is
independent of the global random-source state at entry: torch.manual_seed
(train.py line 112) overwrites that state with a function of the
configured seed before the fit call and before sampling, and the steps
before line 112 (dataset loading, zero-initialized model construction,
weights saving) consume no randomness; so two runs with identical
configuration and identical data are identical.  The fit call starts from
the state set by manual_seed and sampling continues from the state fit
returns. -/
theorem C7_rng_seeded_reproducible (B : Backend) (fs : FS) (cfg : Config) (σ₁ σ₂ : RngState) :
    runMain B fs σ₁ cfg = runMain B fs σ₂ cfg ∧
    fitResOf B fs cfg = B.fit (modelOf fs cfg) (fitArgsOf fs cfg) (torchManualSeed cfg.seed) ∧
    sampleResOf B fs cfg
      = B.sampleAR (modelTrainedOf B fs cfg) (seedArgOf fs cfg) (rngAfterFit B fs cfg) ∧
    (outputsOf B fs cfg).samples = samplesOf B fs cfg :=
  ⟨rfl, rfl, rfl, rfl⟩

/-- Claim C8 counterexample: with the graph path configured as the empty
string, the path option is set (configured) and yet the model is
constructed with graph = None, because train.py line 97 tests Python
truthiness of the path, not whether it is None. -/
theorem C8_counterexample :
    cfgEmptyGraph.path_graph.isSome = true ∧ (modelOf fsEx cfgEmptyGraph).graph = none := by
  constructor
  · rfl
  · simp [modelOf, graphArg, cfgEmptyGraph, emptyPath]

/-- Claim C8 (amended): the model is constructed with the loaded mask if
and only if a non-empty graph path is configured (an empty-string path
behaves like an absent one), and its dimensions L and q are taken from the
dataset. -/
theorem C8_graph_construction (fs : FS) (cfg : Config) :
    (∀ p, cfg.path_graph = some p → p ≠ "" →
      (modelOf fs cfg).graph = some (fs.loadGraph p)) ∧
    (cfg.path_graph = none → (modelOf fs cfg).graph = none) ∧
    (∀ p, cfg.path_graph = some p → p = "" → (modelOf fs cfg).graph = none) ∧
    (modelOf fs cfg).L = (dsOf fs cfg).get_num_residues ∧
    (modelOf fs cfg).q = (dsOf fs cfg).get_num_states := by
  refine ⟨?_, ?_, ?_, rfl, rfl⟩
  · intro p hp hne
    simp [modelOf, graphArg, hp, hne]
  · intro hp
    simp [modelOf, graphArg, hp]
  · intro p hp he
    simp [modelOf, graphArg, hp, he]

/-- Claim C8 witness: with a non-empty configured graph path the model is
built with the loaded mask. -/
theorem C8_graph_construction_witness :
    (modelOf fsEx cfgGraph).graph = some (fsEx.loadGraph gpath) :=
  (C8_graph_construction fsEx cfgGraph).1 gpath rfl (by decide)

/-- Claim C9: when the training-data path names no existing file, the run
fails with FileNotFoundError raised by the check at train.py lines 60-61,
before the output folder is created, before the dataset is loaded, before
the model is constructed and before training: the event trace is empty, so
no file (and not even the output folder) is touched. -/
theorem C9_missing_data_file (B : Backend) (fs : FS) (σ : RngState) (cfg : Config)
    (hx : fs.pathExists cfg.data = false) :
    runMain B fs σ cfg = ([], Except.error Err.fileNotFound) :=
  runMain_notFound B fs σ cfg hx

/-- Claim C9 witness: on the missing-file system the example run stops with
FileNotFoundError and an empty trace. -/
theorem C9_missing_data_file_witness :
    runMain B0 fsMissing 0 cfgEx = ([], Except.error Err.fileNotFound) :=
  C9_missing_data_file B0 fsMissing 0 cfgEx rfl

/-- Claim C4: when the pseudocount option is unset the run assigns it
1 / effective sample size (train.py lines 114-116), and this happens
before the target frequency tables are computed and before the fit call;
when the option is set its value is used unchanged, in the target tables
and in the fit call alike. -/
theorem C4_pseudocount_resolution (B : Backend) (fs : FS) (σ : RngState) (cfg : Config)
    (hx : fs.pathExists cfg.data = true) :
    (cfg.pseudocount = none →
      resolvedPc fs cfg = 1 / (dsOf fs cfg).get_effective_size ∧
      (runMain B fs σ cfg).1.findIdx isPcAutoSet
        < (runMain B fs σ cfg).1.findIdx isFiTargetEv) ∧
    (∀ p, cfg.pseudocount = some p → resolvedPc fs cfg = p) ∧
    (runMain B fs σ cfg).1.findIdx isFiTargetEv < (runMain B fs σ cfg).1.findIdx isFitCall ∧
    (runMain B fs σ cfg).1.getD 7 (Event.manualSeed 0)
      = Event.computeFiTarget (resolvedPc fs cfg) (fiTargetOf fs cfg) ∧
    (runMain B fs σ cfg).1.getD 8 (Event.manualSeed 0)
      = Event.computeFijTarget (resolvedPc fs cfg) ∧
    (fitArgsOf fs cfg).pseudo_count = resolvedPc fs cfg := by
  rcases hfv : fitValidate (fitArgsOf fs cfg) with _ | e
  · rw [runMain_success B fs σ cfg hx hfv]
    refine ⟨fun hpc => ⟨by simp [resolvedPc, hpc], ?_⟩,
      fun p hp => by simp [resolvedPc, hp], ?_, rfl, rfl, rfl⟩
    · simp [preTraceOf, postTraceOf, List.findIdx_cons, isPcAutoSet, isFiTargetEv, pcAutoSet, hpc]
    · simp [preTraceOf, postTraceOf, List.findIdx_cons, isFiTargetEv, isFitCall]
  · rw [runMain_invalid B fs σ cfg e hx hfv]
    refine ⟨fun hpc => ⟨by simp [resolvedPc, hpc], ?_⟩,
      fun p hp => by simp [resolvedPc, hp], ?_, rfl, rfl, rfl⟩
    · simp [preTraceOf, List.findIdx_cons, isPcAutoSet, isFiTargetEv, pcAutoSet, hpc]
    · simp [preTraceOf, List.findIdx_cons, isFiTargetEv, isFitCall]

/-- Claim C4 witness: on the example run with the pseudocount unset, it is
resolved to 1 / effective sample size and the assignment precedes the
target-frequency computation. -/
theorem C4_pseudocount_resolution_witness :
    resolvedPc fsEx cfgAuto = 1 / (dsOf fsEx cfgAuto).get_effective_size ∧
    (runMain B0 fsEx 0 cfgAuto).1.findIdx isPcAutoSet
      < (runMain B0 fsEx 0 cfgAuto).1.findIdx isFiTargetEv :=
  (C4_pseudocount_resolution B0 fsEx 0 cfgAuto rfl).1 rfl

/-- Claim C10: when no weights file is supplied, the dataset's computed
weights are written to {label}_weights.dat (or weights.dat without a
label) inside the output folder, and this write happens before the random
seed is set and before the fit call (train.py lines 102-112); when a
weights file is supplied, no weights file is written anywhere in the run. -/
theorem C10_weights_saving (B : Backend) (fs : FS) (σ : RngState) (cfg : Config)
    (hx : fs.pathExists cfg.data = true) :
    (cfg.weights = none →
      (runMain B fs σ cfg).1.getD 4 (Event.manualSeed 0)
        = Event.weightsStep (some (weightsPath cfg, (dsOf fs cfg).weights)) ∧
      (∀ l, cfg.label = some l → weightsPath cfg = cfg.output ++ "/" ++ l ++ "_weights.dat") ∧
      (cfg.label = none → weightsPath cfg = cfg.output ++ "/weights.dat") ∧
      (runMain B fs σ cfg).1.findIdx isWeightsWrite
        < (runMain B fs σ cfg).1.findIdx isManualSeed ∧
      (runMain B fs σ cfg).1.findIdx isManualSeed
        < (runMain B fs σ cfg).1.findIdx isFitCall) ∧
    (∀ wp, cfg.weights = some wp →
      ((runMain B fs σ cfg).1.all fun e => !isWeightsWrite e) = true) := by
  rcases hfv : fitValidate (fitArgsOf fs cfg) with _ | e
  · rw [runMain_success B fs σ cfg hx hfv]
    refine ⟨fun hw => ⟨?_, fun l hl => by simp [weightsPath, hl],
        fun hl => by simp [weightsPath, hl], ?_, ?_⟩, fun wp hw => ?_⟩
    · simp [preTraceOf, postTraceOf, weightsWritten, hw]
    · simp [preTraceOf, postTraceOf, List.findIdx_cons, isWeightsWrite, isManualSeed,
        weightsWritten, hw]
    · simp [preTraceOf, postTraceOf, List.findIdx_cons, isManualSeed, isFitCall]
    · simp [preTraceOf, postTraceOf, List.all_cons, isWeightsWrite, weightsWritten, hw]
  · rw [runMain_invalid B fs σ cfg e hx hfv]
    refine ⟨fun hw => ⟨?_, fun l hl => by simp [weightsPath, hl],
        fun hl => by simp [weightsPath, hl], ?_, ?_⟩, fun wp hw => ?_⟩
    · simp [preTraceOf, weightsWritten, hw]
    · simp [preTraceOf, List.findIdx_cons, isWeightsWrite, isManualSeed, weightsWritten, hw]
    · simp [preTraceOf, List.findIdx_cons, isManualSeed, isFitCall]
    · simp [preTraceOf, List.all_cons, isWeightsWrite, weightsWritten, hw]

/-- Claim C10 witness: the example run (no weights file supplied, no label)
writes the dataset weights to out/weights.dat at trace position 4. -/
theorem C10_weights_saving_witness :
    (runMain B0 fsEx 0 cfgEx).1.getD 4 (Event.manualSeed 0)
      = Event.weightsStep (some (weightsPath cfgEx, (dsOf fsEx cfgEx).weights)) :=
  ((C10_weights_saving B0 fsEx 0 cfgEx rfl).1 rfl).1

/-- Claim C5: the train-set agreement (and the test-set agreement when a
held-out set is configured) is the mean of the per-position agreement
between predictions and true one-hot data, both restricted to the slice
that keeps exactly the positions with index 2*L//3 through L-1 (train.py
lines 155-161); the last three conjuncts characterize that slice: it is a
drop of the first 2*L//3 positions, its entry i is the original entry
2*L//3 + i, and its length is L - 2*L//3. -/
theorem C5_agreement_last_third (B : Backend) (fs : FS) (σ : RngState) (cfg : Config)
    (hx : fs.pathExists cfg.data = true)
    (hv : fitValidate (fitArgsOf fs cfg) = none) :
    (runMain B fs σ cfg).2 = Except.ok (outputsOf B fs cfg) ∧
    (outputsOf B fs cfg).errTrain = listMean (compute_mean_error
      (sliceLastThird (modelOf fs cfg).L
        (B.predictThirdML (modelTrainedOf B fs cfg) (dataOhOf fs cfg)))
      (sliceLastThird (modelOf fs cfg).L (dataOhOf fs cfg))) ∧
    (∀ toh, testOhOf fs cfg = some toh →
      (outputsOf B fs cfg).errTest = some (listMean (compute_mean_error
        (sliceLastThird (modelOf fs cfg).L (B.predictThirdML (modelTrainedOf B fs cfg) toh))
        (sliceLastThird (modelOf fs cfg).L toh)))) ∧
    (cfg.data_test = none → (outputsOf B fs cfg).errTest = none) ∧
    (∀ X : Tensor, sliceLastThird (modelOf fs cfg).L X
      = X.map fun s => s.drop (2 * (modelOf fs cfg).L / 3)) ∧
    (∀ (s : List (List ℚ)) (i : Nat),
      (s.drop (2 * (modelOf fs cfg).L / 3))[i]? = s[2 * (modelOf fs cfg).L / 3 + i]?) ∧
    (∀ s : List (List ℚ),
      (s.drop (2 * (modelOf fs cfg).L / 3)).length = s.length - 2 * (modelOf fs cfg).L / 3) := by
  refine ⟨?_, rfl, ?_, ?_, fun X => rfl,
    fun s i => List.getElem?_drop s _ i, fun s => List.length_drop _ s⟩
  · rw [runMain_success B fs σ cfg hx hv]
  · intro toh htoh
    simp [outputsOf, errTestOf, htoh]
  · intro hdt
    simp [outputsOf, errTestOf, testOhOf, hdt]

/-- Claim C5 witness: the example run succeeds and reports these outputs. -/
theorem C5_agreement_last_third_witness :
    (runMain B0 fsEx 0 cfgEx).2 = Except.ok (outputsOf B0 fsEx cfgEx) :=
  (C5_agreement_last_third B0 fsEx 0 cfgEx rfl fitValidate_cfgEx).1

/-- Claim C6: the target statistics are computed exactly once, from the
one-hot training data with the resolved pseudocount, before the fit call;
they appear again only in the two Pearson-correlation evaluations (the
full tables at line 168 and their last-third slices at line 173); the fit
call receives the raw one-hot data and the scalar pseudocount, and no
frequency table (the FitArgs record mirrors the call at lines 140-152,
which passes none). -/
theorem C6_target_stats_flow (B : Backend) (fs : FS) (σ : RngState) (cfg : Config)
    (hx : fs.pathExists cfg.data = true)
    (hv : fitValidate (fitArgsOf fs cfg) = none) :
    (runMain B fs σ cfg).1.countP isFiTargetEv = 1 ∧
    (runMain B fs σ cfg).1.countP isFijTargetEv = 1 ∧
    (runMain B fs σ cfg).1.findIdx isFiTargetEv < (runMain B fs σ cfg).1.findIdx isFitCall ∧
    (runMain B fs σ cfg).1.getD 7 (Event.manualSeed 0)
      = Event.computeFiTarget (resolvedPc fs cfg) (fiTargetOf fs cfg) ∧
    fiTargetOf fs cfg
      = get_freq_single_point (dataOhOf fs cfg) (some (dsOf fs cfg).weights) (resolvedPc fs cfg) ∧
    fijTargetOf fs cfg
      = get_freq_two_points (dataOhOf fs cfg) (some (dsOf fs cfg).weights) (resolvedPc fs cfg) ∧
    (runMain B fs σ cfg).1.getD 16 (Event.manualSeed 0)
      = Event.correlate (fiTargetOf fs cfg) (fijTargetOf fs cfg) (piOf B fs cfg) (pijOf B fs cfg) ∧
    (runMain B fs σ cfg).1.getD 17 (Event.manualSeed 0)
      = Event.correlateThird (sliceRowsLastThird (modelOf fs cfg).L (fiTargetOf fs cfg))
          (sliceTwoLastThird (modelOf fs cfg).L (fijTargetOf fs cfg))
          (sliceRowsLastThird (modelOf fs cfg).L (piOf B fs cfg))
          (sliceTwoLastThird (modelOf fs cfg).L (pijOf B fs cfg)) ∧
    (fitArgsOf fs cfg).X = dataOhOf fs cfg ∧
    (fitArgsOf fs cfg).pseudo_count = resolvedPc fs cfg := by
  rw [runMain_success B fs σ cfg hx hv]
  refine ⟨?_, ?_, ?_, rfl, rfl, rfl, rfl, rfl, rfl, rfl⟩
  · simp [preTraceOf, postTraceOf, List.countP_cons, isFiTargetEv]
  · simp [preTraceOf, postTraceOf, List.countP_cons, isFijTargetEv]
  · simp [preTraceOf, postTraceOf, List.findIdx_cons, isFiTargetEv, isFitCall]

/-- Claim C6 witness: the example run computes the single-site target table
exactly once. -/
theorem C6_target_stats_flow_witness :
    (runMain B0 fsEx 0 cfgEx).1.countP isFiTargetEv = 1 :=
  (C6_target_stats_flow B0 fsEx 0 cfgEx rfl fitValidate_cfgEx).1

/-- Claim C2 (amended): the target frequency tables are pseudocount-blended
with the resolved configured pseudocount, but the frequencies of the
model's sampled sequences are computed by calls that pass no pseudocount
(train.py lines 166-167) and therefore use the external default of zero,
i.e. the raw empirical frequencies; the two tables compared by Pearson
correlation are thus not computed with the same pseudocount correction
whenever the configured pseudocount is non-zero. -/
theorem C2_pseudocount_divergence (B : Backend) (fs : FS) (σ : RngState) (cfg : Config)
    (hx : fs.pathExists cfg.data = true)
    (hv : fitValidate (fitArgsOf fs cfg) = none) :
    (runMain B fs σ cfg).1.getD 7 (Event.manualSeed 0)
      = Event.computeFiTarget (resolvedPc fs cfg) (fiTargetOf fs cfg) ∧
    (runMain B fs σ cfg).1.getD 8 (Event.manualSeed 0)
      = Event.computeFijTarget (resolvedPc fs cfg) ∧
    (runMain B fs σ cfg).1.getD 14 (Event.manualSeed 0)
      = Event.computePi default_pseudo_count (piOf B fs cfg) ∧
    (runMain B fs σ cfg).1.getD 15 (Event.manualSeed 0)
      = Event.computePij default_pseudo_count ∧
    default_pseudo_count = 0 ∧
    piOf B fs cfg = get_freq_single_point (samplesOf B fs cfg) none 0 ∧
    pijOf B fs cfg = get_freq_two_points (samplesOf B fs cfg) none 0 := by
  rw [runMain_success B fs σ cfg hx hv]
  exact ⟨rfl, rfl, rfl, rfl, rfl, rfl, rfl⟩

/-- Claim C2 witness: in the example run the sampled-sequence statistics
are computed with the default (zero) pseudocount. -/
theorem C2_pseudocount_divergence_witness :
    (runMain B0 fsEx 0 cfgEx).1.getD 14 (Event.manualSeed 0)
      = Event.computePi default_pseudo_count (piOf B0 fsEx cfgEx) :=
  (C2_pseudocount_divergence B0 fsEx 0 cfgEx rfl fitValidate_cfgEx).2.2.1

/-- Claim C2 counterexample: in the example run, whose configured
pseudocount is 1/2, the target table is blended with 1/2 while the
sampled-sequence table is computed with pseudocount 0; the two corrections
genuinely differ on the very same data, so the two frequency sets are not
computed with the same pseudocount correction. -/
theorem C2_counterexample :
    resolvedPc fsEx cfgEx = 1 / 2 ∧
    (runMain B0 fsEx 0 cfgEx).1.getD 7 (Event.manualSeed 0)
      = Event.computeFiTarget (resolvedPc fsEx cfgEx) (fiTargetOf fsEx cfgEx) ∧
    (runMain B0 fsEx 0 cfgEx).1.getD 14 (Event.manualSeed 0)
      = Event.computePi default_pseudo_count (piOf B0 fsEx cfgEx) ∧
    resolvedPc fsEx cfgEx ≠ default_pseudo_count ∧
    fiTargetOf fsEx cfgEx
      ≠ get_freq_single_point (dataOhOf fsEx cfgEx) (some ((dsOf fsEx cfgEx).weights))
          default_pseudo_count := by
  refine ⟨rfl, ?_, ?_, ?_, ?_⟩
  · rw [runMain_success B0 fsEx 0 cfgEx rfl fitValidate_cfgEx]
    rfl
  · rw [runMain_success B0 fsEx 0 cfgEx rfl fitValidate_cfgEx]
    rfl
  · norm_num [resolvedPc, cfgEx, default_pseudo_count]
  · norm_num [fiTargetOf, get_freq_single_point, dataOhOf, one_hot, dsOf, fsEx, dsEx, cfgEx,
      resolvedPc, default_pseudo_count, tAt, dimL, dimQ, Dataset.get_num_states,
      Dataset.get_effective_size, List.range, List.range.loop]

/-- Claim C1: the tensor passed to model.sample_autoregressive at train.py
line 165 is data_oh[:, 2*model.L//3:, :], the LAST third of the one-hot
training data, not the first two-thirds that the claim (and the spec's
sampler contract, which expects a seed covering a prefix of positions)
describes.  Evaluated on the L = 3, q = 2 example: the passed seed is
[[[1, 0]]] (position 2 only), which differs from the first-two-thirds
slice [[[1, 0], [0, 1]]] (positions 0 and 1). -/
theorem C1_sampler_seed_bug :
    (runMain B0 fsEx 0 cfgEx).1.getD 13 (Event.manualSeed 0)
      = Event.sampleAR (seedArgOf fsEx cfgEx) ∧
    seedArgOf fsEx cfgEx = sliceLastThird (modelOf fsEx cfgEx).L (dataOhOf fsEx cfgEx) ∧
    seedArgOf fsEx cfgEx = [[[1, 0]]] ∧
    (dataOhOf fsEx cfgEx).map (fun s => s.take (2 * (modelOf fsEx cfgEx).L / 3))
      = [[[1, 0], [0, 1]]] ∧
    seedArgOf fsEx cfgEx
      ≠ (dataOhOf fsEx cfgEx).map fun s => s.take (2 * (modelOf fsEx cfgEx).L / 3) := by
  refine ⟨?_, rfl, ?_, ?_, ?_⟩
  · rw [runMain_success B0 fsEx 0 cfgEx rfl fitValidate_cfgEx]
    rfl
  · norm_num [seedArgOf, sliceLastThird, dataOhOf, one_hot, dsOf, fsEx, dsEx, cfgEx, modelOf,
      graphArg, Dataset.get_num_residues, Dataset.get_num_states, List.range, List.range.loop]
  · norm_num [dataOhOf, one_hot, dsOf, fsEx, dsEx, cfgEx, modelOf, graphArg,
      Dataset.get_num_residues, Dataset.get_num_states, List.range, List.range.loop]
  · norm_num [seedArgOf, sliceLastThird, dataOhOf, one_hot, dsOf, fsEx, dsEx, cfgEx, modelOf,
      graphArg, Dataset.get_num_residues, Dataset.get_num_states, List.range, List.range.loop]

end ArDCATrain
